import Mathlib

/-!
Verification of the signal-aggregation and position-sizing core of the
`ai-hedge-fund` pipeline (fundamentals, sentiment, risk-manager and
portfolio-manager stages).

Numbers are embedded as exact rationals (`ℚ`); Python decimal literals such
as `0.15` become the rationals they denote.  Signals and transaction types
are strings, as in the source.  Python's `int()` conversion, which truncates
toward zero, is embedded as `pyInt`.  The dict `data` threaded through the
stages is embedded as `String → Option Value`; a stage that in Python would
raise (missing key, wrong shape) is a `none` result of the stage function.
-/

namespace HedgeFund

/-- The flat record of named ratios consumed by the agents
(`data["financial_metrics"][0]` in the source). -/
structure FinancialMetrics where
  return_on_equity : ℚ
  net_margin : ℚ
  operating_margin : ℚ
  revenue_growth : ℚ
  earnings_growth : ℚ
  book_value_growth : ℚ
  debt_to_equity : ℚ
  current_ratio : ℚ
  quick_ratio : ℚ
  free_cash_flow_per_share : ℚ
  earnings_per_share : ℚ
  price_to_earnings : ℚ
  price_to_book : ℚ
  price_to_sales : ℚ
  beta : ℚ
  market_cap : ℚ
  deriving DecidableEq

/-! ## Fundamentals agent (src/agents/fundamentals.py) -/

/-- `profitability_score` accumulation in `fundamentals_agent`. -/
def profitability_score (m : FinancialMetrics) : Nat :=
  (if m.return_on_equity > 15/100 then 1 else 0) +
  (if m.net_margin > 20/100 then 1 else 0) +
  (if m.operating_margin > 15/100 then 1 else 0)

/-- `growth_score` accumulation in `fundamentals_agent`. -/
def growth_score (m : FinancialMetrics) : Nat :=
  (if m.revenue_growth > 10/100 then 1 else 0) +
  (if m.earnings_growth > 10/100 then 1 else 0) +
  (if m.book_value_growth > 10/100 then 1 else 0)

/-- `health_score` accumulation in `fundamentals_agent`. -/
def health_score (m : FinancialMetrics) : Nat :=
  (if m.debt_to_equity < 1 then 1 else 0) +
  (if m.current_ratio > 15/10 then 1 else 0) +
  (if m.quick_ratio > 1 then 1 else 0)

/-- `cash_flow_score` accumulation in `fundamentals_agent`. -/
def cash_flow_score (m : FinancialMetrics) : Nat :=
  (if m.free_cash_flow_per_share > m.earnings_per_share * (8/10) then 1 else 0) +
  (if m.free_cash_flow_per_share > 0 then 1 else 0)

/-- `valuation_score` accumulation in `fundamentals_agent`. -/
def valuation_score (m : FinancialMetrics) : Nat :=
  (if m.price_to_earnings > 0 ∧ m.price_to_earnings < 30 then 1 else 0) +
  (if m.price_to_book < 5 then 1 else 0) +
  (if m.price_to_sales < 10 then 1 else 0)

/-- `'bullish' if score >= 2 else 'bearish' if score == 0 else 'neutral'`,
used for the profitability, growth, health and valuation sub-signals. -/
def signal_of_score (s : Nat) : String :=
  if s ≥ 2 then "bullish" else if s = 0 then "bearish" else "neutral"

/-- `'bullish' if cash_flow_score == 2 else 'bearish' if cash_flow_score == 0
else 'neutral'`. -/
def cash_flow_signal_of_score (s : Nat) : String :=
  if s = 2 then "bullish" else if s = 0 then "bearish" else "neutral"

/-- The `signals` list appended to in `fundamentals_agent`, in order. -/
def fundamentals_signals (m : FinancialMetrics) : List String :=
  [signal_of_score (profitability_score m),
   signal_of_score (growth_score m),
   signal_of_score (health_score m),
   cash_flow_signal_of_score (cash_flow_score m),
   signal_of_score (valuation_score m)]

/-- Final `(final_signal, confidence)` pair of `fundamentals_agent`
(the aggregation over the five sub-signals). -/
def fundamentals_result (m : FinancialMetrics) : String × ℚ :=
  let signals := fundamentals_signals m
  let bullish_count := (signals.filter (fun s => s == "bullish")).length
  let bearish_count := (signals.filter (fun s => s == "bearish")).length
  if bullish_count > bearish_count ∧ bullish_count ≥ 3 then
    ("bullish", min 1 (((bullish_count : ℚ) - (bearish_count : ℚ)) / (signals.length : ℚ)))
  else if bearish_count > bullish_count ∧ bearish_count ≥ 3 then
    ("bearish", min 1 (((bearish_count : ℚ) - (bullish_count : ℚ)) / (signals.length : ℚ)))
  else
    ("neutral", 1/2)

/-! ## Sentiment agent (src/agents/sentiment.py) -/

/-- One insider trade record (`{shares, value, transaction_type}`). -/
structure InsiderTrade where
  shares : ℚ
  value : ℚ
  transaction_type : String
  deriving DecidableEq

/-- The `insider_metrics` aggregate published in the sentiment agent's
reasoning trace. -/
structure InsiderMetrics where
  total_transactions : Nat
  avg_transaction_size : ℚ
  total_value : ℚ
  buy_ratio : ℚ
  deriving DecidableEq

/-- `(final_signal, final_confidence, insider_metrics)` of `sentiment_agent`.
The `if insider_trades:` test is the match on the empty list. -/
def sentiment_result (insider_trades : List InsiderTrade) : String × ℚ × InsiderMetrics :=
  match insider_trades with
  | [] => ("neutral", 1/2, ⟨0, 0, 0, 0⟩)
  | _ :: _ =>
    let n : ℚ := (insider_trades.length : ℚ)
    let avg_transaction_size := (insider_trades.map (fun t => t.shares)).sum / n
    let total_value := (insider_trades.map (fun t => t.value)).sum
    let buy_ratio :=
      (((insider_trades.filter (fun t => t.transaction_type == "buy")).length : ℚ)) / n
    let metrics : InsiderMetrics :=
      ⟨insider_trades.length, avg_transaction_size, total_value, buy_ratio⟩
    if buy_ratio > 7/10 ∧ total_value > 1000000 then
      ("bullish", min 1 buy_ratio, metrics)
    else if buy_ratio < 3/10 ∧ total_value > 1000000 then
      ("bearish", min 1 (1 - buy_ratio), metrics)
    else
      ("neutral", 1/2, metrics)

/-! ## Risk manager (src/agents/risk_manager.py) -/

/-- `market_risk = min(1.0, max(0.0, beta / 2))`. -/
def market_risk (m : FinancialMetrics) : ℚ := min 1 (max 0 (m.beta / 2))

/-- `size_risk = 1.0 - min(1.0, market_cap / 1e12)` (no lower clamp). -/
def size_risk (m : FinancialMetrics) : ℚ := 1 - min 1 (m.market_cap / 1000000000000)

/-- `leverage_risk = min(1.0, debt_to_equity / 2)` (no lower clamp). -/
def leverage_risk (m : FinancialMetrics) : ℚ := min 1 (m.debt_to_equity / 2)

/-- `liquidity_risk = max(0.0, 1.0 - current_ratio / 2)` (no upper clamp). -/
def liquidity_risk (m : FinancialMetrics) : ℚ := max 0 (1 - m.current_ratio / 2)

/-- `total_risk_score = market_risk*0.3 + size_risk*0.2 + leverage_risk*0.3 +
liquidity_risk*0.2`. -/
def total_risk_score (m : FinancialMetrics) : ℚ :=
  market_risk m * (3/10) + size_risk m * (2/10) +
  leverage_risk m * (3/10) + liquidity_risk m * (2/10)

/-- `base_position = 1.0 - total_risk_score`. -/
def base_position (m : FinancialMetrics) : ℚ := 1 - total_risk_score m

/-- `bullish_weight = sum(conf for sig, conf in signals if sig == "bullish")`. -/
def bullish_weight (signals : List (String × ℚ)) : ℚ :=
  ((signals.filter (fun p => p.1 == "bullish")).map (fun p => p.2)).sum

/-- `bearish_weight = sum(conf for sig, conf in signals if sig == "bearish")`. -/
def bearish_weight (signals : List (String × ℚ)) : ℚ :=
  ((signals.filter (fun p => p.1 == "bearish")).map (fun p => p.2)).sum

/-- The `position_size` computed by the if/elif/else chain of
`risk_management_agent`, before the 0.8 cap. -/
def risk_position_size_raw (m : FinancialMetrics) (signals : List (String × ℚ)) : ℚ :=
  if bullish_weight signals > bearish_weight signals then
    base_position m * min 1 (bullish_weight signals)
  else if bearish_weight signals > bullish_weight signals then
    base_position m * min 1 (bearish_weight signals)
  else 0

/-- The `signal` set by the same if/elif/else chain. -/
def risk_signal_out (signals : List (String × ℚ)) : String :=
  if bullish_weight signals > bearish_weight signals then "bullish"
  else if bearish_weight signals > bullish_weight signals then "bearish"
  else "neutral"

/-- `(signal, position_size)` published by `risk_management_agent`, with the
final `position_size = min(0.8, position_size)` cap applied. -/
def risk_result (m : FinancialMetrics) (signals : List (String × ℚ)) : String × ℚ :=
  (risk_signal_out signals, min (8/10) (risk_position_size_raw m signals))

/-! ## Portfolio manager (src/agents/portfolio_manager.py) -/

/-- `{cash, stock}` snapshot (`data["portfolio"]`). -/
structure Portfolio where
  cash : ℚ
  stock : ℤ
  deriving DecidableEq

/-- Python's `int()` applied to a rational: truncation toward zero. -/
def pyInt (q : ℚ) : ℤ := if 0 ≤ q then Int.floor q else Int.ceil q

/-- `target_shares = int(target_position_value / current_price) if
current_price > 0 else 0`, with `target_position_value =
(cash + stock*current_price) * position_size`. -/
def target_shares (portfolio : Portfolio) (current_price position_size : ℚ) : ℤ :=
  let total_portfolio_value := portfolio.cash + (portfolio.stock : ℚ) * current_price
  let target_position_value := total_portfolio_value * position_size
  if current_price > 0 then pyInt (target_position_value / current_price) else 0

/-- `(action, quantity)` of the order built by `portfolio_management_agent`. -/
def portfolio_decision (portfolio : Portfolio) (current_price position_size : ℚ) :
    String × ℤ :=
  let ts := target_shares portfolio current_price position_size
  let current_shares := portfolio.stock
  if ts > current_shares then ("buy", ts - current_shares)
  else if ts < current_shares then ("sell", current_shares - ts)
  else ("hold", 0)

/-! ## Spec-side formulations

Definitions in this section follow the wording of the specification (its
§4.1–§4.4), to be compared with the source-side definitions above;
each `spec_…` name marks such a definition. -/

/-- Spec-side `clamp(x, 0, 1)` of §4.3. -/
def clamp01 (x : ℚ) : ℚ := max 0 (min 1 x)

/-- Spec-side composite
`total_risk = 0.3*market_risk + 0.2*size_risk + 0.3*leverage_risk + 0.2*liquidity_risk`,
over the sub-scores the claim refers to by name. -/
def spec_total_risk (m : FinancialMetrics) : ℚ :=
  (3/10) * market_risk m + (2/10) * size_risk m +
  (3/10) * leverage_risk m + (2/10) * liquidity_risk m

/-- Spec-side "sum confidence over all input signals tagged `tag`". -/
def spec_weight (tag : String) (signals : List (String × ℚ)) : ℚ :=
  signals.foldl (fun acc p => if p.1 = tag then acc + p.2 else acc) 0

/-- Spec-side risk-manager output: base position from the composite risk,
scaled by the agreeing weight, neutral tie, and the final 0.8 cap. -/
def spec_risk_result (m : FinancialMetrics) (signals : List (String × ℚ)) : String × ℚ :=
  let bp := 1 - spec_total_risk m
  let bw := spec_weight "bullish" signals
  let brw := spec_weight "bearish" signals
  let pre : String × ℚ :=
    if bw > brw then ("bullish", bp * min 1 bw)
    else if brw > bw then ("bearish", bp * min 1 brw)
    else ("neutral", 0)
  (pre.1, min (8/10) pre.2)

theorem spec_weight_aux (tag : String) (l : List (String × ℚ)) (acc : ℚ) :
    l.foldl (fun acc p => if p.1 = tag then acc + p.2 else acc) acc =
      acc + ((l.filter (fun p => p.1 == tag)).map (fun p => p.2)).sum := by
  induction l generalizing acc with
  | nil => simp
  | cons hd tl ih =>
    by_cases h : hd.1 = tag
    · simp [List.foldl_cons, List.filter_cons, h, ih, add_assoc]
    · simp [List.foldl_cons, List.filter_cons, h, ih]

theorem spec_weight_bullish (signals : List (String × ℚ)) :
    spec_weight "bullish" signals = bullish_weight signals := by
  rw [spec_weight, bullish_weight, spec_weight_aux, zero_add]

theorem spec_weight_bearish (signals : List (String × ℚ)) :
    spec_weight "bearish" signals = bearish_weight signals := by
  rw [spec_weight, bearish_weight, spec_weight_aux, zero_add]

theorem spec_total_risk_eq (m : FinancialMetrics) :
    spec_total_risk m = total_risk_score m := by
  rw [spec_total_risk, total_risk_score]; ring

/-- §8 scenario metrics of the risk-manager claim: beta 4, market cap 2e12,
zero leverage, current ratio 3 (unconstrained fields 0). -/
def mRiskScenario : FinancialMetrics :=
  { return_on_equity := 0, net_margin := 0, operating_margin := 0,
    revenue_growth := 0, earnings_growth := 0, book_value_growth := 0,
    debt_to_equity := 0, current_ratio := 3, quick_ratio := 0,
    free_cash_flow_per_share := 0, earnings_per_share := 0,
    price_to_earnings := 0, price_to_book := 0, price_to_sales := 0,
    beta := 4, market_cap := 2000000000000 }

/-- C1: for every metrics record and every combination of upstream
signal/confidence pairs, the position size published by the risk manager
(the second component of `risk_result`) is at most 0.8. -/
theorem C1_position_size_capped (m : FinancialMetrics)
    (signals : List (String × ℚ)) : (risk_result m signals).2 ≤ 8/10 :=
  min_le_left _ _

/-- C1 witness: the cap evaluated at the §8 scenario metrics with one
bullish signal of full confidence. -/
theorem C1_position_size_capped_witness :
    (risk_result mRiskScenario
      [("bullish", 1), ("neutral", 1/2), ("neutral", 1/2), ("neutral", 1/2)]).2 ≤ 8/10 :=
  C1_position_size_capped mRiskScenario
    [("bullish", 1), ("neutral", 1/2), ("neutral", 1/2), ("neutral", 1/2)]

/-- C2: the risk manager's published pair equals the spec-side composite
computation (weighted risk combination, confidence-weighted signal
agreement, neutral tie, 0.8 cap), and on the §8 scenario metrics the four
sub-scores are 1, 0, 0, 0, the composite risk is 0.3 and the base position
0.7. -/
theorem C2_risk_manager_functional :
    (∀ (m : FinancialMetrics) (signals : List (String × ℚ)),
        risk_result m signals = spec_risk_result m signals) ∧
      market_risk mRiskScenario = 1 ∧ size_risk mRiskScenario = 0 ∧
      leverage_risk mRiskScenario = 0 ∧ liquidity_risk mRiskScenario = 0 ∧
      total_risk_score mRiskScenario = 3/10 ∧ base_position mRiskScenario = 7/10 := by
  constructor
  · intro m signals
    rw [risk_result, spec_risk_result]
    simp only [spec_weight_bullish, spec_weight_bearish, spec_total_risk_eq]
    rw [risk_signal_out, risk_position_size_raw, base_position]
    split_ifs <;> rfl
  · norm_num [market_risk, size_risk, leverage_risk, liquidity_risk,
      total_risk_score, base_position, mRiskScenario, min_def, max_def]

/-! ### Spec-side fundamentals analyzer (§4.1) -/

/-- Spec-side profitability tests: ROE>0.15, net margin>0.20, op margin>0.15. -/
def spec_profitability_score (m : FinancialMetrics) : Nat :=
  [decide (m.return_on_equity > 15/100), decide (m.net_margin > 20/100),
   decide (m.operating_margin > 15/100)].count true

/-- Spec-side growth tests: revenue/earnings/book-value growth each >0.10. -/
def spec_growth_score (m : FinancialMetrics) : Nat :=
  [decide (m.revenue_growth > 10/100), decide (m.earnings_growth > 10/100),
   decide (m.book_value_growth > 10/100)].count true

/-- Spec-side health tests: debt/equity<1.0, current ratio>1.5, quick ratio>1.0. -/
def spec_health_score (m : FinancialMetrics) : Nat :=
  [decide (m.debt_to_equity < 1), decide (m.current_ratio > 3/2),
   decide (m.quick_ratio > 1)].count true

/-- Spec-side cash-flow tests: FCF/share > 0.8*EPS and FCF/share > 0. -/
def spec_cash_flow_score (m : FinancialMetrics) : Nat :=
  [decide (m.free_cash_flow_per_share > (8/10) * m.earnings_per_share),
   decide (m.free_cash_flow_per_share > 0)].count true

/-- Spec-side valuation tests: 0<P/E<30, P/B<5, P/S<10. -/
def spec_valuation_score (m : FinancialMetrics) : Nat :=
  [decide (0 < m.price_to_earnings ∧ m.price_to_earnings < 30),
   decide (m.price_to_book < 5), decide (m.price_to_sales < 10)].count true

/-- Spec-side cut points: bullish if score≥2, bearish if score=0, else neutral. -/
def spec_cut (score : Nat) : String :=
  if 2 ≤ score then "bullish" else if score = 0 then "bearish" else "neutral"

/-- Spec-side cash-flow cut: bullish only if both tests pass. -/
def spec_cut_cash (score : Nat) : String :=
  if score = 2 then "bullish" else if score = 0 then "bearish" else "neutral"

/-- Spec-side list of the five sub-signals. -/
def spec_sub_signals (m : FinancialMetrics) : List String :=
  [spec_cut (spec_profitability_score m), spec_cut (spec_growth_score m),
   spec_cut (spec_health_score m), spec_cut_cash (spec_cash_flow_score m),
   spec_cut (spec_valuation_score m)]

/-- Spec-side aggregation: bullish iff bullish_count>bearish_count and
bullish_count≥3 (bearish symmetric), confidence min(1, |diff|/5), and the
neutral fallback with confidence 0.5. -/
def spec_fundamentals_result (m : FinancialMetrics) : String × ℚ :=
  let bc := (spec_sub_signals m).count "bullish"
  let brc := (spec_sub_signals m).count "bearish"
  if bc > brc ∧ 3 ≤ bc then ("bullish", min 1 (|(bc : ℚ) - (brc : ℚ)| / 5))
  else if brc > bc ∧ 3 ≤ brc then ("bearish", min 1 (|(bc : ℚ) - (brc : ℚ)| / 5))
  else ("neutral", 1/2)

theorem count_true_three (a b c : Prop) [Decidable a] [Decidable b] [Decidable c] :
    ([decide a, decide b, decide c].count true) =
      ((if a then 1 else 0) + (if b then 1 else 0) + (if c then 1 else 0)) := by
  by_cases ha : a <;> by_cases hb : b <;> by_cases hc : c <;>
    simp [ha, hb, hc, List.count_cons]

theorem count_true_two (a b : Prop) [Decidable a] [Decidable b] :
    ([decide a, decide b].count true) = ((if a then 1 else 0) + (if b then 1 else 0)) := by
  by_cases ha : a <;> by_cases hb : b <;> simp [ha, hb, List.count_cons]

theorem spec_scores_eq (m : FinancialMetrics) :
    spec_profitability_score m = profitability_score m ∧
      spec_growth_score m = growth_score m ∧
      spec_health_score m = health_score m ∧
      spec_cash_flow_score m = cash_flow_score m ∧
      spec_valuation_score m = valuation_score m := by
  refine ⟨?_, ?_, ?_, ?_, ?_⟩
  · rw [spec_profitability_score, profitability_score, count_true_three]
  · rw [spec_growth_score, growth_score, count_true_three]
  · rw [spec_health_score, health_score, count_true_three]
    norm_num
  · rw [spec_cash_flow_score, cash_flow_score, count_true_two]
    rw [mul_comm]
  · rw [spec_valuation_score, valuation_score, count_true_three]

theorem spec_sub_signals_eq (m : FinancialMetrics) :
    spec_sub_signals m = fundamentals_signals m := by
  obtain ⟨h1, h2, h3, h4, h5⟩ := spec_scores_eq m
  rw [spec_sub_signals, fundamentals_signals, h1, h2, h3, h4, h5]
  rfl

theorem count_eq_filter_length (s : String) (l : List String) :
    l.count s = (l.filter (fun x => x == s)).length := by
  rw [List.count, List.countP_eq_length_filter]

/-- §8 scenario metrics of the fundamentals claim (unconstrained fields 0). -/
def mFundScenario : FinancialMetrics :=
  { return_on_equity := 20/100, net_margin := 25/100, operating_margin := 18/100,
    revenue_growth := 15/100, earnings_growth := 12/100, book_value_growth := 5/100,
    debt_to_equity := 1/2, current_ratio := 2, quick_ratio := 12/10,
    free_cash_flow_per_share := 2, earnings_per_share := 2,
    price_to_earnings := 20, price_to_book := 3, price_to_sales := 5,
    beta := 0, market_cap := 0 }

theorem fund_scenario_signals :
    fundamentals_signals mFundScenario =
      ["bullish", "bullish", "bullish", "bullish", "bullish"] := by
  norm_num [fundamentals_signals, profitability_score, growth_score, health_score,
    cash_flow_score, valuation_score, signal_of_score, cash_flow_signal_of_score,
    mFundScenario]

theorem fund_scenario_result :
    fundamentals_result mFundScenario = ("bullish", 1) := by
  rw [fundamentals_result, fund_scenario_signals]
  simp

/-- C3: the fundamentals agent's published pair equals the spec-side
computation (five threshold-test sub-signals with the stated cut points,
count-based aggregation, confidence min(1, |diff|/5), neutral fallback 0.5);
on the §8 scenario metrics all five sub-signals are bullish and the result
is (bullish, 1). -/
theorem C3_fundamentals_functional :
    (∀ m : FinancialMetrics, fundamentals_result m = spec_fundamentals_result m) ∧
      fundamentals_signals mFundScenario =
        ["bullish", "bullish", "bullish", "bullish", "bullish"] ∧
      fundamentals_result mFundScenario = ("bullish", 1) := by
  refine ⟨?_, fund_scenario_signals, fund_scenario_result⟩
  intro m
  rw [fundamentals_result, spec_fundamentals_result, spec_sub_signals_eq,
    count_eq_filter_length, count_eq_filter_length]
  set bc := ((fundamentals_signals m).filter (fun x => x == "bullish")).length with hbc
  set brc := ((fundamentals_signals m).filter (fun x => x == "bearish")).length with hbrc
  have hlen : ((fundamentals_signals m).length : ℚ) = 5 := by
    rw [fundamentals_signals]; rfl
  split_ifs with h1 h2
  · have : (brc : ℚ) < bc := by exact_mod_cast h1.1
    rw [hlen, abs_of_pos (by linarith)]
  · have : (bc : ℚ) < brc := by exact_mod_cast h2.1
    rw [hlen, abs_of_neg (by linarith), neg_sub]
  · rfl

/-! ### Spec-side sentiment analyzer (§4.2) -/

/-- Spec-side sentiment result: empty list gives the neutral/0.5/all-zero
fallback; otherwise buy_ratio, total value and mean transaction size drive
the bullish/bearish thresholds. -/
def spec_sentiment_result (trades : List InsiderTrade) : String × ℚ × InsiderMetrics :=
  if trades = [] then ("neutral", 1/2, ⟨0, 0, 0, 0⟩)
  else
    let n : ℚ := (trades.length : ℚ)
    let buy_ratio := ((trades.countP (fun t => t.transaction_type == "buy") : ℚ)) / n
    let total_value := (trades.map (fun t => t.value)).sum
    let avg_transaction_size := (trades.map (fun t => t.shares)).sum / n
    let metrics : InsiderMetrics :=
      ⟨trades.length, avg_transaction_size, total_value, buy_ratio⟩
    if buy_ratio > 7/10 ∧ total_value > 1000000 then ("bullish", min 1 buy_ratio, metrics)
    else if buy_ratio < 3/10 ∧ total_value > 1000000 then
      ("bearish", min 1 (1 - buy_ratio), metrics)
    else ("neutral", 1/2, metrics)

/-- C5: the sentiment agent's published triple equals the spec-side
computation for every trade list, and on the empty list it is exactly
(neutral, 0.5, all-zero metrics). -/
theorem C5_sentiment_functional :
    (∀ trades : List InsiderTrade,
        sentiment_result trades = spec_sentiment_result trades) ∧
      sentiment_result [] = ("neutral", 1/2, ⟨0, 0, 0, 0⟩) := by
  constructor
  · intro trades
    match trades with
    | [] => rfl
    | hd :: tl =>
      rw [sentiment_result, spec_sentiment_result,
        if_neg (show ¬(hd :: tl = ([] : List InsiderTrade)) by simp),
        List.countP_eq_length_filter]
  · rfl

/-! ### Risk sub-score bounds (C6) and position-size range (C7) -/

/-- Metrics with a negative market cap of −1e12 (all other fields 0). -/
def mNegCap12 : FinancialMetrics :=
  { return_on_equity := 0, net_margin := 0, operating_margin := 0,
    revenue_growth := 0, earnings_growth := 0, book_value_growth := 0,
    debt_to_equity := 0, current_ratio := 0, quick_ratio := 0,
    free_cash_flow_per_share := 0, earnings_per_share := 0,
    price_to_earnings := 0, price_to_book := 0, price_to_sales := 0,
    beta := 0, market_cap := -1000000000000 }

/-- C6 counterexample: at market_cap = −1e12 the code's `size_risk` is 2,
outside [0,1], and differs from the spec's `1 − clamp(market_cap/1e12, 0, 1)`
(which gives 1): the code omits the lower clamp. -/
theorem C6_counterexample_size_risk :
    size_risk mNegCap12 = 2 ∧ ¬ size_risk mNegCap12 ≤ 1 ∧
      size_risk mNegCap12 ≠ 1 - clamp01 (mNegCap12.market_cap / 1000000000000) := by
  norm_num [size_risk, clamp01, mNegCap12, min_def, max_def]

theorem sub_score_bounds (m : FinancialMetrics) :
    (0 ≤ market_risk m ∧ market_risk m ≤ 1) ∧
      (0 ≤ size_risk m) ∧ (0 ≤ m.market_cap → size_risk m ≤ 1) ∧
      (leverage_risk m ≤ 1) ∧ (0 ≤ m.debt_to_equity → 0 ≤ leverage_risk m) ∧
      (0 ≤ liquidity_risk m) ∧ (0 ≤ m.current_ratio → liquidity_risk m ≤ 1) := by
  refine ⟨⟨le_min zero_le_one (le_max_left 0 _), min_le_left _ _⟩,
    sub_nonneg.mpr (min_le_left _ _), fun hmc => ?_,
    min_le_left _ _, fun hde => le_min zero_le_one (by positivity),
    le_max_left 0 _, fun hcr => ?_⟩
  · have h0 : (0:ℚ) ≤ min 1 (m.market_cap / 1000000000000) :=
      le_min zero_le_one (by positivity)
    rw [size_risk]
    linarith
  · have h0 : (0:ℚ) ≤ m.current_ratio / 2 := by positivity
    rw [liquidity_risk]
    exact max_le zero_le_one (by linarith)

/-- C6 amended: `market_risk` always lies in [0,1]; `size_risk` is always ≥ 0
and is ≤ 1 when market_cap ≥ 0 (the code has no lower clamp, so a negative
market cap pushes it above 1); `leverage_risk` is always ≤ 1 and is ≥ 0 when
debt_to_equity ≥ 0; `liquidity_risk` is always ≥ 0 and is ≤ 1 when
current_ratio ≥ 0.  Hence all four sub-scores lie in [0,1] on non-negative
inputs. -/
theorem C6_sub_score_bounds (m : FinancialMetrics) :
    (0 ≤ market_risk m ∧ market_risk m ≤ 1) ∧
      (0 ≤ size_risk m) ∧ (0 ≤ m.market_cap → size_risk m ≤ 1) ∧
      (leverage_risk m ≤ 1) ∧ (0 ≤ m.debt_to_equity → 0 ≤ leverage_risk m) ∧
      (0 ≤ liquidity_risk m) ∧ (0 ≤ m.current_ratio → liquidity_risk m ≤ 1) :=
  sub_score_bounds m

/-- C6 witness: the amended bounds evaluated at the §8 risk-scenario metrics
(market cap 2e12 ≥ 0, debt/equity 0 ≥ 0, current ratio 3 ≥ 0). -/
theorem C6_sub_score_bounds_witness :
    0 ≤ size_risk mRiskScenario ∧ size_risk mRiskScenario ≤ 1 ∧
      0 ≤ leverage_risk mRiskScenario ∧ liquidity_risk mRiskScenario ≤ 1 := by
  have h := C6_sub_score_bounds mRiskScenario
  exact ⟨h.2.1, h.2.2.1 (by norm_num [mRiskScenario]),
    h.2.2.2.2.1 (by norm_num [mRiskScenario]),
    h.2.2.2.2.2.2 (by norm_num [mRiskScenario])⟩

/-- Metrics with a negative market cap of −1e13 and current ratio 2
(all other fields 0), driving `total_risk_score` above 1. -/
def mNegCap13 : FinancialMetrics :=
  { return_on_equity := 0, net_margin := 0, operating_margin := 0,
    revenue_growth := 0, earnings_growth := 0, book_value_growth := 0,
    debt_to_equity := 0, current_ratio := 2, quick_ratio := 0,
    free_cash_flow_per_share := 0, earnings_per_share := 0,
    price_to_earnings := 0, price_to_book := 0, price_to_sales := 0,
    beta := 0, market_cap := -10000000000000 }

/-- One fully-confident bullish upstream signal, the rest neutral. -/
def sigsOneBull : List (String × ℚ) :=
  [("bullish", 1), ("neutral", 1/2), ("neutral", 1/2), ("neutral", 1/2)]

theorem sigsOneBull_weights :
    bullish_weight sigsOneBull = 1 ∧ bearish_weight sigsOneBull = 0 := by
  constructor <;> simp [bullish_weight, bearish_weight, sigsOneBull]

/-- C7 counterexample: at market_cap = −1e13 (size_risk 11, total risk 2.2,
base position −1.2) with one fully-confident bullish signal, the published
position size is −1.2 < 0. -/
theorem C7_counterexample_negative_position :
    (risk_result mNegCap13 sigsOneBull).2 = -6/5 ∧
      (risk_result mNegCap13 sigsOneBull).2 < 0 := by
  have h : (risk_result mNegCap13 sigsOneBull).2 = -6/5 := by
    rw [risk_result]
    simp only [risk_position_size_raw, sigsOneBull_weights.1, sigsOneBull_weights.2]
    norm_num [base_position, total_risk_score, market_risk, size_risk,
      leverage_risk, liquidity_risk, mNegCap13, min_def, max_def]
  exact ⟨h, by rw [h]; norm_num⟩

theorem weight_nonneg (signals : List (String × ℚ))
    (hconf : ∀ p ∈ signals, 0 ≤ p.2) (tag : String) :
    0 ≤ ((signals.filter (fun p => p.1 == tag)).map (fun p => p.2)).sum := by
  apply List.sum_nonneg
  intro x hx
  obtain ⟨p, hp, rfl⟩ := List.mem_map.mp hx
  exact hconf p (List.mem_filter.mp hp).1

/-- C7 amended: the published position size is always ≤ 0.8, and it is ≥ 0
(hence in [0, 0.8]) whenever market_cap ≥ 0, current_ratio ≥ 0 and every
upstream confidence is ≥ 0; with a negative market cap (or current ratio)
the unclamped sub-scores can push it below 0. -/
theorem C7_position_size_range (m : FinancialMetrics) (signals : List (String × ℚ))
    (hmc : 0 ≤ m.market_cap) (hcr : 0 ≤ m.current_ratio)
    (hconf : ∀ p ∈ signals, 0 ≤ p.2) :
    0 ≤ (risk_result m signals).2 ∧ (risk_result m signals).2 ≤ 8/10 := by
  have hb := sub_score_bounds m
  have hmr : market_risk m ≤ 1 := hb.1.2
  have hsr : size_risk m ≤ 1 := hb.2.2.1 hmc
  have hlr : leverage_risk m ≤ 1 := hb.2.2.2.1
  have hliq : liquidity_risk m ≤ 1 := hb.2.2.2.2.2.2 hcr
  have hbase : 0 ≤ base_position m := by
    rw [base_position, total_risk_score]
    linarith
  have hbw : 0 ≤ bullish_weight signals := weight_nonneg signals hconf "bullish"
  have hbrw : 0 ≤ bearish_weight signals := weight_nonneg signals hconf "bearish"
  have hraw : 0 ≤ risk_position_size_raw m signals := by
    rw [risk_position_size_raw]
    split_ifs
    · exact mul_nonneg hbase (le_min zero_le_one hbw)
    · exact mul_nonneg hbase (le_min zero_le_one hbrw)
    · exact le_refl 0
  exact ⟨le_min (by norm_num) hraw, min_le_left _ _⟩

/-- C7 witness: the range evaluated at the §8 risk-scenario metrics with one
fully-confident bullish signal. -/
theorem C7_position_size_range_witness :
    0 ≤ (risk_result mRiskScenario sigsOneBull).2 ∧
      (risk_result mRiskScenario sigsOneBull).2 ≤ 8/10 :=
  C7_position_size_range mRiskScenario sigsOneBull
    (by norm_num [mRiskScenario]) (by norm_num [mRiskScenario])
    (by intro p hp; fin_cases hp <;> norm_num)

/-! ### Spec-side portfolio manager (§4.4) -/

/-- Spec-side order construction: compare a target share count with the
currently held shares. -/
def spec_order_from (t cur : ℤ) : String × ℤ :=
  if t > cur then ("buy", t - cur)
  else if t < cur then ("sell", cur - t)
  else ("hold", 0)

/-- Target shares as the claim words them:
`floor(target_value/price)` if price>0 else 0. -/
def spec_target_shares_floor (p : Portfolio) (price position_size : ℚ) : ℤ :=
  if price > 0 then Int.floor ((p.cash + (p.stock : ℚ) * price) * position_size / price)
  else 0

/-- Target shares as the code computes them: Python `int()` truncation. -/
def spec_target_shares_trunc (p : Portfolio) (price position_size : ℚ) : ℤ :=
  if price > 0 then pyInt ((p.cash + (p.stock : ℚ) * price) * position_size / price)
  else 0

/-- Spec-side order with the floor-based target of the claim. -/
def spec_order_floor (p : Portfolio) (price position_size : ℚ) : String × ℤ :=
  spec_order_from (spec_target_shares_floor p price position_size) p.stock

/-- Spec-side order with the truncation-based target of the code. -/
def spec_order_trunc (p : Portfolio) (price position_size : ℚ) : String × ℤ :=
  spec_order_from (spec_target_shares_trunc p price position_size) p.stock

/-- C4 counterexample: cash 150, no stock, price 10, position_size −1/20.
`target_value/price = −3/4`; Python `int()` truncates it to 0 and the code
holds, while the claim's floor gives −1 and would sell 1 share. -/
theorem C4_counterexample_floor_vs_trunc :
    portfolio_decision ⟨150, 0⟩ 10 (-1/20) = ("hold", 0) ∧
      spec_order_floor ⟨150, 0⟩ 10 (-1/20) = ("sell", 1) ∧
      portfolio_decision ⟨150, 0⟩ 10 (-1/20) ≠ spec_order_floor ⟨150, 0⟩ 10 (-1/20) := by
  have h1 : portfolio_decision ⟨150, 0⟩ 10 (-1/20) = ("hold", 0) := by
    rw [portfolio_decision, target_shares]
    norm_num [pyInt]
    intro hc
    have h0 : (⌈-((3:ℚ) / 4)⌉ : ℤ) = 0 := by norm_num
    rw [h0] at hc
    exact absurd hc (lt_irrefl 0)
  have h2 : spec_order_floor ⟨150, 0⟩ 10 (-1/20) = ("sell", 1) := by
    rw [spec_order_floor, spec_target_shares_floor, spec_order_from]
    norm_num
  refine ⟨h1, h2, ?_⟩
  rw [h1, h2]
  simp

/-- C4 amended: the order equals the spec-side computation with
`target_shares` given by truncation toward zero (Python `int()`) of
`target_value/price` when price>0 and 0 otherwise; this coincides with the
claim's floor whenever `target_value ≥ 0`; equal target and held shares give
exactly (hold, 0); and at price 0 the order is sell-all when shares are held
and hold when none are. -/
theorem C4_portfolio_functional :
    (∀ (p : Portfolio) (price ps : ℚ),
        portfolio_decision p price ps = spec_order_trunc p price ps) ∧
      (∀ (p : Portfolio) (price ps : ℚ), 0 < price →
        0 ≤ (p.cash + (p.stock : ℚ) * price) * ps →
        portfolio_decision p price ps = spec_order_floor p price ps) ∧
      (∀ (p : Portfolio) (price ps : ℚ),
        target_shares p price ps = p.stock →
        portfolio_decision p price ps = ("hold", 0)) ∧
      (∀ (p : Portfolio) (ps : ℚ), 0 < p.stock →
        portfolio_decision p 0 ps = ("sell", p.stock)) ∧
      (∀ (p : Portfolio) (ps : ℚ), p.stock = 0 →
        portfolio_decision p 0 ps = ("hold", 0)) := by
  have hzero : ∀ (p : Portfolio) (ps : ℚ), target_shares p 0 ps = 0 := by
    intro p ps
    rw [target_shares]
    norm_num
  refine ⟨fun p price ps => rfl, ?_, ?_, ?_, ?_⟩
  · intro p price ps hprice hval
    have harg : 0 ≤ (p.cash + (p.stock : ℚ) * price) * ps / price :=
      div_nonneg hval hprice.le
    have htr : spec_target_shares_trunc p price ps = spec_target_shares_floor p price ps := by
      rw [spec_target_shares_trunc, spec_target_shares_floor, if_pos hprice,
        if_pos hprice, pyInt, if_pos harg]
    show spec_order_trunc p price ps = spec_order_floor p price ps
    rw [spec_order_trunc, spec_order_floor, htr]
  · intro p price ps h
    rw [portfolio_decision]
    simp only [h, lt_irrefl, if_false]
  · intro p ps h
    rw [portfolio_decision]
    simp only [hzero]
    rw [if_neg (by omega), if_pos h, sub_zero]
  · intro p ps h
    rw [portfolio_decision]
    simp only [hzero, h]
    norm_num

/-- C4 witness: floor-agreement at cash 1000, 10 shares, price 20,
position_size 1/2; sell-all at price 0 with 7 shares held; hold at price 0
with no shares. -/
theorem C4_portfolio_functional_witness :
    portfolio_decision ⟨1000, 10⟩ 20 (1/2) = spec_order_floor ⟨1000, 10⟩ 20 (1/2) ∧
      portfolio_decision ⟨100, 7⟩ 0 (1/2) = ("sell", 7) ∧
      portfolio_decision ⟨100, 0⟩ 0 (1/2) = ("hold", 0) :=
  ⟨C4_portfolio_functional.2.1 ⟨1000, 10⟩ 20 (1/2) (by norm_num) (by norm_num),
    C4_portfolio_functional.2.2.2.1 ⟨100, 7⟩ (1/2) (by norm_num),
    C4_portfolio_functional.2.2.2.2 ⟨100, 0⟩ (1/2) rfl⟩

/-- C10: with non-negative cash, non-negative held shares and a non-negative
position size, a sell order's quantity never exceeds the held shares (the
target share count is ≥ 0), and at price 0 the sell quantity is exactly the
held shares. -/
theorem C10_sell_quantity_bounded (p : Portfolio) (price ps : ℚ) (q : ℤ)
    (hcash : 0 ≤ p.cash) (hstock : 0 ≤ p.stock) (hps : 0 ≤ ps)
    (h : portfolio_decision p price ps = ("sell", q)) :
    q ≤ p.stock ∧ 0 ≤ target_shares p price ps ∧ (price = 0 → q = p.stock) := by
  have hts : 0 ≤ target_shares p price ps := by
    rw [target_shares]
    split_ifs with hpr
    · have hstockQ : (0:ℚ) ≤ (p.stock : ℚ) := by exact_mod_cast hstock
      have harg : 0 ≤ (p.cash + (p.stock : ℚ) * price) * ps / price :=
        div_nonneg (mul_nonneg (add_nonneg hcash (mul_nonneg hstockQ hpr.le)) hps) hpr.le
      rw [pyInt, if_pos harg]
      exact Int.le_floor.mpr (by exact_mod_cast harg)
    · exact le_refl 0
  rw [portfolio_decision] at h
  split_ifs at h with h1 h2
  · exact absurd h (by simp)
  · rw [Prod.mk.injEq] at h
    obtain ⟨-, hq⟩ := h
    refine ⟨by omega, hts, fun hp0 => ?_⟩
    have h0 : target_shares p 0 ps = 0 := by rw [target_shares]; norm_num
    subst hp0
    omega
  · exact absurd h (by simp)

/-- C10 witness: price 0 with 7 shares held sells exactly 7 shares. -/
theorem C10_sell_quantity_bounded_witness :
    (7:ℤ) ≤ (Portfolio.mk 100 7).stock ∧ 0 ≤ target_shares ⟨100, 7⟩ 0 (1/2) ∧
      ((0:ℚ) = 0 → (7:ℤ) = (Portfolio.mk 100 7).stock) :=
  C10_sell_quantity_bounded ⟨100, 7⟩ 0 (1/2) 7 (by norm_num) (by norm_num)
    (by norm_num)
    (by rw [portfolio_decision, target_shares]; norm_num)

/-! ## The shared decision context

The Python stages thread a dict `data` and return `{**data, key: v, ...}`.
It is embedded as a partial mapping from keys to a sum of the value shapes
the stages read and write.  A lookup that in Python would raise (missing
required key, wrong shape) makes the stage return `none`. -/

/-- One OHLCV bar, of which the stages only read `close`
(`data["prices"][-1]["close"]`). -/
structure PriceBar where
  close : ℚ
  deriving DecidableEq

/-- One signal/confidence pair in the portfolio manager's reasoning record. -/
structure SignalEntry where
  signal : String
  confidence : ℚ
  deriving DecidableEq

/-- The `decision` record built by `portfolio_management_agent`: the order
plus the audit/reasoning fields. -/
structure Decision where
  action : String
  quantity : ℤ
  fundamentals : SignalEntry
  technicals : SignalEntry
  sentiment : SignalEntry
  valuation : SignalEntry
  risk_signal : String
  position_size : ℚ
  current_shares : ℤ
  target_shares : ℤ
  current_price : ℚ
  total_value : ℚ
  deriving DecidableEq

/-- The value shapes stored in the decision context. -/
inductive Value where
  | num : ℚ → Value
  | str : String → Value
  | metricsList : List FinancialMetrics → Value
  | trades : List InsiderTrade → Value
  | port : Portfolio → Value
  | priceBars : List PriceBar → Value
  | order : Decision → Value
  deriving DecidableEq

/-- The decision context: the `data` dict of the pipeline. -/
def DataMap : Type := String → Option Value

/-- `{**data, k: v}`. -/
def setKey (data : DataMap) (k : String) (v : Value) : DataMap :=
  fun k2 => if k2 = k then some v else data k2

/-- `data.get(k, v)`. -/
def getD (data : DataMap) (k : String) (v : Value) : Value := (data k).getD v

def asNum : Value → Option ℚ
  | .num q => some q
  | _ => none

def asStr : Value → Option String
  | .str s => some s
  | _ => none

def asMetricsList : Value → Option (List FinancialMetrics)
  | .metricsList l => some l
  | _ => none

def asTrades : Value → Option (List InsiderTrade)
  | .trades l => some l
  | _ => none

def asPort : Value → Option Portfolio
  | .port p => some p
  | _ => none

def asPriceBars : Value → Option (List PriceBar)
  | .priceBars l => some l
  | _ => none

/-- `data.get(sigKey, "neutral")` and `data.get(confKey, 0.5)` as one read;
`none` when a present value has the wrong shape. -/
def readSignalConf (data : DataMap) (sigKey confKey : String) : Option (String × ℚ) :=
  (asStr (getD data sigKey (Value.str "neutral"))).bind fun s =>
    (asNum (getD data confKey (Value.num (1/2)))).map fun c => (s, c)

/-- `fundamentals_agent`: reads `data["financial_metrics"][0]`, publishes
`fundamentals_signal` and `fundamentals_confidence` on top of `data`. -/
def fundamentals_agent (data : DataMap) : Option DataMap :=
  ((data "financial_metrics").bind asMetricsList).bind fun ml =>
    ml.head?.map fun metrics =>
      let r := fundamentals_result metrics
      setKey (setKey data "fundamentals_signal" (Value.str r.1))
        "fundamentals_confidence" (Value.num r.2)

/-- `sentiment_agent`: reads `data["insider_trades"]`, publishes
`sentiment_signal` and `sentiment_confidence` on top of `data`. -/
def sentiment_agent (data : DataMap) : Option DataMap :=
  ((data "insider_trades").bind asTrades).map fun insider_trades =>
    let r := sentiment_result insider_trades
    setKey (setKey data "sentiment_signal" (Value.str r.1))
      "sentiment_confidence" (Value.num r.2.1)

/-- `risk_management_agent`: reads the four upstream signal/confidence pairs
(defaulting to neutral/0.5) and `data["financial_metrics"][0]`, publishes
`risk_signal` and `position_size` on top of `data`. -/
def risk_management_agent (data : DataMap) : Option DataMap :=
  (readSignalConf data "fundamentals_signal" "fundamentals_confidence").bind fun f =>
    (readSignalConf data "technical_signal" "technical_confidence").bind fun t =>
      (readSignalConf data "sentiment_signal" "sentiment_confidence").bind fun s =>
        (readSignalConf data "valuation_signal" "valuation_confidence").bind fun v =>
          ((data "financial_metrics").bind asMetricsList).bind fun ml =>
            ml.head?.map fun metrics =>
              let r := risk_result metrics [f, t, s, v]
              setKey (setKey data "risk_signal" (Value.str r.1))
                "position_size" (Value.num r.2)

/-- The `decision` record computed by `portfolio_management_agent` from the
context: portfolio, upstream signals (audit only), `risk_signal`,
`position_size` (default 0) and the latest close. -/
def portfolio_manager_decision (data : DataMap) : Option Decision :=
  ((data "portfolio").bind asPort).bind fun portfolio =>
    (readSignalConf data "fundamentals_signal" "fundamentals_confidence").bind fun f =>
      (readSignalConf data "technical_signal" "technical_confidence").bind fun t =>
        (readSignalConf data "sentiment_signal" "sentiment_confidence").bind fun s =>
          (readSignalConf data "valuation_signal" "valuation_confidence").bind fun v =>
            (asStr (getD data "risk_signal" (Value.str "neutral"))).bind fun rs =>
              (asNum (getD data "position_size" (Value.num 0))).bind fun position_size =>
                ((data "prices").bind asPriceBars).bind fun bars =>
                  bars.getLast?.map fun lastBar =>
                    let current_price := lastBar.close
                    let a := portfolio_decision portfolio current_price position_size
                    { action := a.1, quantity := a.2,
                      fundamentals := ⟨f.1, f.2⟩, technicals := ⟨t.1, t.2⟩,
                      sentiment := ⟨s.1, s.2⟩, valuation := ⟨v.1, v.2⟩,
                      risk_signal := rs, position_size := position_size,
                      current_shares := portfolio.stock,
                      target_shares := target_shares portfolio current_price position_size,
                      current_price := current_price,
                      total_value := portfolio.cash + (portfolio.stock : ℚ) * current_price }

/-- `portfolio_management_agent`: publishes `final_decision` on top of
`data`. -/
def portfolio_management_agent (data : DataMap) : Option DataMap :=
  (portfolio_manager_decision data).map fun d =>
    setKey data "final_decision" (Value.order d)

/-! ### C8: upstream signals do not influence the order -/

/-- C8: two contexts that agree on `portfolio`, `prices` and `position_size`
but differ arbitrarily in the upstream signal/confidence entries (and
`risk_signal`) give decisions with the same action and the same quantity:
the signal reads feed only the audit/reasoning fields. -/
theorem C8_order_ignores_signals (d1 d2 : DataMap) (dec1 dec2 : Decision)
    (hport : d1 "portfolio" = d2 "portfolio")
    (hprices : d1 "prices" = d2 "prices")
    (hps : d1 "position_size" = d2 "position_size")
    (h1 : portfolio_manager_decision d1 = some dec1)
    (h2 : portfolio_manager_decision d2 = some dec2) :
    dec1.action = dec2.action ∧ dec1.quantity = dec2.quantity := by
  simp only [portfolio_manager_decision, Option.bind_eq_some, Option.map_eq_some',
    getD] at h1 h2
  obtain ⟨p1, ⟨pv1, hpv1, hp1⟩, f1, -, t1, -, s1, -, v1, -, rs1, -, ps1, hps1,
    bars1, ⟨bv1, hbv1, hb1⟩, lb1, hlb1, hd1⟩ := h1
  obtain ⟨p2, ⟨pv2, hpv2, hp2⟩, f2, -, t2, -, s2, -, v2, -, rs2, -, ps2, hps2,
    bars2, ⟨bv2, hbv2, hb2⟩, lb2, hlb2, hd2⟩ := h2
  rw [hport] at hpv1
  rw [hprices] at hbv1
  rw [hps] at hps1
  obtain rfl : pv1 = pv2 := Option.some_injective _ (hpv1.symm.trans hpv2)
  obtain rfl : p1 = p2 := Option.some_injective _ (hp1.symm.trans hp2)
  obtain rfl : ps1 = ps2 := Option.some_injective _ (hps1.symm.trans hps2)
  obtain rfl : bv1 = bv2 := Option.some_injective _ (hbv1.symm.trans hbv2)
  obtain rfl : bars1 = bars2 := Option.some_injective _ (hb1.symm.trans hb2)
  obtain rfl : lb1 = lb2 := Option.some_injective _ (hlb1.symm.trans hlb2)
  subst hd1
  subst hd2
  exact ⟨rfl, rfl⟩

/-! ### C9: each stage only appends its own keys -/

/-- C9: each stage is frame-preserving on the context: when it succeeds,
every key other than its own published keys is mapped exactly as in the
input, so stages only add their own keys. -/
theorem C9_stages_frame_preserving (data out : DataMap) :
    (fundamentals_agent data = some out →
      ∀ k : String, k ≠ "fundamentals_signal" → k ≠ "fundamentals_confidence" →
        out k = data k) ∧
      (sentiment_agent data = some out →
        ∀ k : String, k ≠ "sentiment_signal" → k ≠ "sentiment_confidence" →
          out k = data k) ∧
      (risk_management_agent data = some out →
        ∀ k : String, k ≠ "risk_signal" → k ≠ "position_size" →
          out k = data k) ∧
      (portfolio_management_agent data = some out →
        ∀ k : String, k ≠ "final_decision" → out k = data k) := by
  refine ⟨?_, ?_, ?_, ?_⟩
  · intro h k hk1 hk2
    simp only [fundamentals_agent, Option.bind_eq_some, Option.map_eq_some'] at h
    obtain ⟨ml, -, m, -, hout⟩ := h
    subst hout
    simp [setKey, hk1, hk2]
  · intro h k hk1 hk2
    simp only [sentiment_agent, Option.bind_eq_some, Option.map_eq_some'] at h
    obtain ⟨l, -, hout⟩ := h
    subst hout
    simp [setKey, hk1, hk2]
  · intro h k hk1 hk2
    simp only [risk_management_agent, Option.bind_eq_some, Option.map_eq_some'] at h
    obtain ⟨f, -, t, -, s, -, v, -, ml, -, m, -, hout⟩ := h
    subst hout
    simp [setKey, hk1, hk2]
  · intro h k hk1
    simp only [portfolio_management_agent, Option.map_eq_some'] at h
    obtain ⟨d, -, hout⟩ := h
    subst hout
    simp [setKey, hk1]

/-! ### Concrete pipeline context for the witnesses -/

/-- A concrete context holding metrics, trades, portfolio, prices and an
unrelated key `ticker`. -/
def d0 : DataMap := fun k =>
  if k = "financial_metrics" then some (Value.metricsList [mFundScenario])
  else if k = "insider_trades" then some (Value.trades [])
  else if k = "portfolio" then some (Value.port ⟨1000, 10⟩)
  else if k = "prices" then some (Value.priceBars [⟨20⟩])
  else if k = "ticker" then some (Value.str "AAPL")
  else none

/-- Output of the fundamentals stage on `d0`. -/
def outF : DataMap :=
  setKey (setKey d0 "fundamentals_signal" (Value.str "bullish"))
    "fundamentals_confidence" (Value.num 1)

/-- Output of the sentiment stage on `d0`. -/
def outS : DataMap :=
  setKey (setKey d0 "sentiment_signal" (Value.str "neutral"))
    "sentiment_confidence" (Value.num (1/2))

/-- Output of the risk-manager stage on `d0`. -/
def outR : DataMap :=
  setKey (setKey d0 "risk_signal" (Value.str "neutral")) "position_size" (Value.num 0)

/-- The decision the portfolio manager produces on `d0` (position size
defaults to 0, so it sells the 10 held shares). -/
def dec0 : Decision :=
  { action := "sell", quantity := 10, fundamentals := ⟨"neutral", 1/2⟩,
    technicals := ⟨"neutral", 1/2⟩, sentiment := ⟨"neutral", 1/2⟩,
    valuation := ⟨"neutral", 1/2⟩, risk_signal := "neutral", position_size := 0,
    current_shares := 10, target_shares := 0, current_price := 20,
    total_value := 1200 }

/-- Output of the portfolio-manager stage on `d0`. -/
def outP : DataMap := setKey d0 "final_decision" (Value.order dec0)

theorem risk_result_neutral (a b c d : ℚ) :
    risk_result mFundScenario
      [("neutral", a), ("neutral", b), ("neutral", c), ("neutral", d)] =
      ("neutral", 0) := by
  rw [risk_result, risk_signal_out, risk_position_size_raw]
  simp [bullish_weight, bearish_weight]
  norm_num [min_def]

theorem fundamentals_agent_d0 : fundamentals_agent d0 = some outF := by
  rw [fundamentals_agent]
  simp [d0, asMetricsList, fund_scenario_result, outF]

theorem sentiment_agent_d0 : sentiment_agent d0 = some outS := by
  rw [sentiment_agent]
  simp [d0, asTrades, outS, sentiment_result]

theorem risk_agent_d0 : risk_management_agent d0 = some outR := by
  rw [risk_management_agent]
  simp [d0, readSignalConf, getD, asStr, asNum, asMetricsList, risk_result_neutral, outR]

theorem portfolio_decision_d0 : portfolio_decision ⟨1000, 10⟩ 20 0 = ("sell", 10) := by
  rw [portfolio_decision, target_shares]
  norm_num [pyInt]

theorem target_shares_d0 : target_shares ⟨1000, 10⟩ 20 0 = 0 := by
  rw [target_shares]
  norm_num [pyInt]

theorem portfolio_agent_d0 : portfolio_management_agent d0 = some outP := by
  rw [portfolio_management_agent, portfolio_manager_decision]
  simp [d0, asPort, readSignalConf, getD, asStr, asNum, asPriceBars, outP, dec0,
    portfolio_decision_d0, target_shares_d0]
  norm_num

/-- C9 witness: on the concrete context `d0` all four stages succeed, and
the unrelated key `ticker` (and the inputs each stage does not own) pass
through unchanged. -/
theorem C9_stages_frame_preserving_witness :
    (fundamentals_agent d0 = some outF ∧ outF "ticker" = d0 "ticker" ∧
        outF "portfolio" = d0 "portfolio") ∧
      (sentiment_agent d0 = some outS ∧ outS "ticker" = d0 "ticker") ∧
      (risk_management_agent d0 = some outR ∧ outR "ticker" = d0 "ticker") ∧
      (portfolio_management_agent d0 = some outP ∧ outP "ticker" = d0 "ticker") := by
  refine ⟨⟨fundamentals_agent_d0, ?_, ?_⟩, ⟨sentiment_agent_d0, ?_⟩,
    ⟨risk_agent_d0, ?_⟩, ⟨portfolio_agent_d0, ?_⟩⟩
  · exact (C9_stages_frame_preserving d0 outF).1 fundamentals_agent_d0 "ticker"
      (by decide) (by decide)
  · exact (C9_stages_frame_preserving d0 outF).1 fundamentals_agent_d0 "portfolio"
      (by decide) (by decide)
  · exact (C9_stages_frame_preserving d0 outS).2.1 sentiment_agent_d0 "ticker"
      (by decide) (by decide)
  · exact (C9_stages_frame_preserving d0 outR).2.2.1 risk_agent_d0 "ticker"
      (by decide) (by decide)
  · exact (C9_stages_frame_preserving d0 outP).2.2.2 portfolio_agent_d0 "ticker"
      (by decide)

/-- Context `d0` with a bullish fundamentals signal (confidence 1) and
position size 1/2. -/
def dA : DataMap :=
  setKey (setKey (setKey d0 "fundamentals_signal" (Value.str "bullish"))
    "fundamentals_confidence" (Value.num 1)) "position_size" (Value.num (1/2))

/-- Context `d0` with a bearish fundamentals signal (confidence 3/4) and the
same position size 1/2. -/
def dB : DataMap :=
  setKey (setKey (setKey d0 "fundamentals_signal" (Value.str "bearish"))
    "fundamentals_confidence" (Value.num (3/4))) "position_size" (Value.num (1/2))

/-- Decision on `dA`: buy 20 (target 30 vs held 10). -/
def decA : Decision :=
  { action := "buy", quantity := 20, fundamentals := ⟨"bullish", 1⟩,
    technicals := ⟨"neutral", 1/2⟩, sentiment := ⟨"neutral", 1/2⟩,
    valuation := ⟨"neutral", 1/2⟩, risk_signal := "neutral", position_size := 1/2,
    current_shares := 10, target_shares := 30, current_price := 20,
    total_value := 1200 }

/-- Decision on `dB`: same order, different reasoning record. -/
def decB : Decision :=
  { action := "buy", quantity := 20, fundamentals := ⟨"bearish", 3/4⟩,
    technicals := ⟨"neutral", 1/2⟩, sentiment := ⟨"neutral", 1/2⟩,
    valuation := ⟨"neutral", 1/2⟩, risk_signal := "neutral", position_size := 1/2,
    current_shares := 10, target_shares := 30, current_price := 20,
    total_value := 1200 }

theorem portfolio_decision_dA : portfolio_decision ⟨1000, 10⟩ 20 (1/2) = ("buy", 20) := by
  rw [portfolio_decision, target_shares]
  norm_num [pyInt]

theorem target_shares_dA : target_shares ⟨1000, 10⟩ 20 (1/2) = 30 := by
  rw [target_shares]
  norm_num [pyInt]

theorem pm_decision_dA : portfolio_manager_decision dA = some decA := by
  rw [portfolio_manager_decision]
  simp [dA, d0, setKey, asPort, readSignalConf, getD, asStr, asNum, asPriceBars,
    decA, portfolio_decision_dA, target_shares_dA]
  norm_num
  exact ⟨by rw [portfolio_decision_dA], by rw [portfolio_decision_dA], target_shares_dA⟩

theorem pm_decision_dB : portfolio_manager_decision dB = some decB := by
  rw [portfolio_manager_decision]
  simp [dB, d0, setKey, asPort, readSignalConf, getD, asStr, asNum, asPriceBars,
    decB, portfolio_decision_dA, target_shares_dA]
  norm_num
  exact ⟨by rw [portfolio_decision_dA], by rw [portfolio_decision_dA], target_shares_dA⟩

/-- C8 witness: `dA` and `dB` differ in the fundamentals signal and
confidence yet produce the same action and quantity. -/
theorem C8_order_ignores_signals_witness :
    portfolio_manager_decision dA = some decA ∧
      portfolio_manager_decision dB = some decB ∧
      decA.fundamentals ≠ decB.fundamentals ∧
      decA.action = decB.action ∧ decA.quantity = decB.quantity := by
  refine ⟨pm_decision_dA, pm_decision_dB, by simp [decA, decB], ?_⟩
  exact C8_order_ignores_signals dA dB decA decB
    (by simp [dA, dB, setKey]) (by simp [dA, dB, setKey]) (by simp [dA, dB, setKey])
    pm_decision_dA pm_decision_dB

end HedgeFund
